import Mathlib

/-!
Verification of the Emojicode compiler CLI option subsystem
(src/Compiler/CLI/Options.cpp) against its natural-language specification.

Paths and C++ std::string values are modelled as lists of characters.
The llvm::sys::path and llvm::sys::fs helpers the source calls are embedded
below in their posix form (the only path style relevant to the spec).
Printing side effects of the source (std::cout / std::cerr) are dropped;
everything else is translated statement by statement.
-/

namespace EmojicodeCLI

/-- Character strings: the character list underlying a C++ std::string. -/
abbrev Str := List Char

/-- The character list of a Lean string literal, used to write Str values. -/
def str (s : String) : Str := s.data

/-- Index of the last occurrence of a character in a list
(StringRef.find_last_of restricted to the single posix separator set). -/
def lastIdxOf (c : Char) : Str → Option Nat
  | [] => none
  | x :: xs =>
    match lastIdxOf c xs with
    | some i => some (i + 1)
    | none => if x = c then some 0 else none

/-- Index of the first occurrence of a character at or after a start index
(StringRef.find_first_of with a start position). -/
def firstIdxFrom (c : Char) (p : Str) (start : Nat) : Option Nat :=
  match (p.drop start).findIdx? (fun x => x == c) with
  | some i => some (start + i)
  | none => none

/-- llvm::sys::path filename_pos for posix paths: position where the file
name component begins. -/
def filenamePos (p : Str) : Nat :=
  if p.length = 2 ∧ p[0]? = some '/' ∧ p[1]? = some '/' then 0
  else if p.getLast? = some '/' then p.length - 1
  else
    match lastIdxOf '/' p with
    | none => 0
    | some pos => if pos = 1 ∧ p[0]? = some '/' then 0 else pos + 1

/-- llvm::sys::path::filename for posix paths. -/
def filename (p : Str) : Str := p.drop (filenamePos p)

/-- llvm::sys::path root_dir_start for posix paths; none models npos. -/
def rootDirStart (p : Str) : Option Nat :=
  if 3 < p.length ∧ p[0]? = some '/' ∧ p[1]? = some '/' ∧ ¬ p[2]? = some '/' then
    firstIdxFrom '/' p 2
  else if p[0]? = some '/' then some 0
  else none

/-- The separator-skipping loop of llvm::sys::path parent_path_end; the Nat
argument is the current end position being decremented. -/
def stripSeps (p : Str) (rootDirPos : Option Nat) : Nat → Nat
  | 0 => 0
  | e + 1 =>
    if ¬ rootDirPos = some e ∧ p[e]? = some '/' then stripSeps p rootDirPos e
    else e + 1

/-- llvm::sys::path parent_path_end for posix paths; none models npos. -/
def parentPathEnd (p : Str) : Option Nat :=
  let endPos := filenamePos p
  let filenameWasSep := decide (p ≠ [] ∧ p[endPos]? = some '/')
  let rootDirPos := rootDirStart (p.take endPos)
  let endPos1 := stripSeps p rootDirPos endPos
  if endPos1 = 1 ∧ rootDirPos = some 0 ∧ filenameWasSep = true then none
  else some endPos1

/-- llvm::sys::path::parent_path for posix paths. -/
def parent_path (p : Str) : Str :=
  match parentPathEnd p with
  | none => []
  | some e => p.take e

/-- llvm::sys::path::stem for posix paths: the file name with everything
from its last dot on removed, with "." and ".." kept whole. -/
def stem (p : Str) : Str :=
  let fname := filename p
  match lastIdxOf '.' fname with
  | none => fname
  | some pos =>
    if fname = ['.'] ∨ fname = ['.', '.'] then fname
    else fname.take pos

/-- llvm::sys::path::has_stem. -/
def has_stem (p : Str) : Prop := stem p ≠ []

instance (p : Str) : Decidable (has_stem p) :=
  inferInstanceAs (Decidable (stem p ≠ []))

/-- The process state Options.cpp reads besides argv.  The three optional
fields are getenv("CXX"), getenv("AR") and getenv("EMOJICODE_PACKAGES_PATH"),
where some means the variable is set (possibly to the empty string).
absPackagesDir is the result of llvm::sys::fs::make_absolute applied to
"packages"; it depends on the working directory, so it is a parameter. -/
structure Env where
  cxx : Option Str
  arVar : Option Str
  packagesPath : Option Str
  absPackagesDir : Str

/-- The Options object of Options.cpp.  Field defaults are those of the
class declaration in Options.hpp, which is not among the sources and is
modelled from the spec: string fields default to empty and pack defaults
to true. -/
structure Options where
  mainFile : Str
  mainPackageName : Str
  targetTriple : Str
  linker_ : Str
  outPath : Str
  interfaceFile : Str
  reportPath : Str
  packageSearchPaths : List Str
  report : Bool
  jsonOutput : Bool
  format : Bool
  forceColor : Bool
  optimize : Bool
  printIr : Bool
  pack : Bool

/-- Modelled from the spec: Options.hpp (not among the sources) defines the
standalone() accessor; standalone compilation is signalled by the absence of
a package name, i.e. an empty mainPackageName. -/
def Options.standalone (o : Options) : Prop := o.mainPackageName = []

instance (o : Options) : Decidable o.standalone :=
  inferInstanceAs (Decidable (o.mainPackageName = []))

/-- The compiled-in default package directory (the defaultPackagesDirectory
macro at the top of Options.cpp). -/
def defaultPackagesDirectory : Str := str "/usr/local/EmojicodePackages"

/-- Options::readEnvironment: the absolute "packages" directory is appended
first, the CLI search paths are then inserted at the front, then the value
of the packages environment variable whenever getenv returns non-null (its
value even when empty), and finally the compiled-in default directory. -/
def readEnvironment (env : Env) (searchPaths : List Str) : List Str :=
  let l1 : List Str := [env.absPackagesDir]
  let l2 : List Str := searchPaths ++ l1
  let l3 : List Str :=
    match env.packagesPath with
    | some ppath => l2 ++ [ppath]
    | none => l2
  l3 ++ [defaultPackagesDirectory]

/-- The trailing interface and report blocks of Options::configureOutPath.
The parentPath argument is the value of the local parentPath variable at
this point of the function (the standalone branch may have appended a
separator to it). -/
def configureInterfaceReport (o : Options) (parentPath : Str) : Options :=
  let o2 :=
    if ¬ o.standalone ∧ o.interfaceFile = [] then
      let base := if parentPath ≠ [] then parentPath ++ ['/'] else []
      { o with interfaceFile := base ++ str "interface.emojii" }
    else o
  if o2.report = true then
    let base := if parentPath ≠ [] then parentPath ++ ['/'] else []
    { o2 with reportPath := base ++ str "documentation.json" }
  else o2

/-- Options::configureOutPath.  In the standalone branch the source first
assigns outPath = mainFile and only replaces it by parentPath + stem when
the main file has a stem; in that branch the local parentPath variable is
mutated (a separator is appended), which the later report block observes. -/
def configureOutPath (o : Options) : Options :=
  let parentPath := parent_path o.mainFile
  if o.pack = true ∧ o.outPath = [] then
    if o.standalone then
      if has_stem o.mainFile then
        let pp := if parentPath ≠ [] then parentPath ++ ['/'] else parentPath
        configureInterfaceReport { o with outPath := pp ++ stem o.mainFile } pp
      else
        configureInterfaceReport { o with outPath := o.mainFile } parentPath
    else
      let base := if parentPath ≠ [] then parentPath ++ ['/'] else []
      configureInterfaceReport
        { o with outPath := base ++ str "lib" ++ o.mainPackageName ++ str ".a" }
        parentPath
  else
    configureInterfaceReport o parentPath

/-- The typed values the args.hxx ArgumentParser produces on a successful
ParseCLI, one per flag declared in the Options constructor.  Option-typed
fields distinguish a supplied flag from an absent one (the source tests
them with operator bool); plain Str fields model flags read through Get(),
which yields the empty string when the flag is absent.  The linker flag is
declared and parsed, but the constructor body never reads its value. -/
structure ParsedArgs where
  file : Str
  package : Option Str
  out : Option Str
  interfaceOut : Option Str
  targetTriple : Str
  linkerFlag : Option Str
  report : Bool
  object : Bool
  json : Bool
  format : Bool
  color : Bool
  optimize : Bool
  printIr : Bool
  searchPaths : List Str

/-- The out-path value as the constructor stores it: the supplied -o
string when the flag was given and the empty string otherwise. -/
def outFlagValue (args : ParsedArgs) : Str :=
  match args.out with
  | some v => v
  | none => []

/-- The field assignments of the Options constructor on the successful
parse path, before configureOutPath runs.  linker_ is never assigned and
keeps its empty default although a --linker value may have been parsed. -/
def initialOptions (args : ParsedArgs) (env : Env) : Options :=
  { mainFile := args.file
    mainPackageName := match args.package with | some p => p | none => []
    targetTriple := args.targetTriple
    linker_ := []
    outPath := match args.out with | some p => p | none => []
    interfaceFile := match args.interfaceOut with | some p => p | none => []
    reportPath := []
    packageSearchPaths := readEnvironment env args.searchPaths
    report := args.report
    jsonOutput := args.json
    format := args.format
    forceColor := args.color
    optimize := args.optimize
    printIr := args.printIr
    pack := if args.object = true ∨ args.printIr = true then false else true }

/-- The successful path of the Options constructor: field assignments from
the parsed values, then configureOutPath. -/
def buildFromArgs (args : ParsedArgs) (env : Env) : Options :=
  configureOutPath (initialOptions args env)

/-- Modelled from the spec: the outcome of args.hxx ParseCLI
(src/Compiler/Utils/args.hxx is not among the sources).  A help request, a
malformed command line and a failed validation (in particular a missing
required positional argument) surface as the three exception kinds the
constructor catches; otherwise parsing succeeds with typed values. -/
inductive ParseResult where
  | success (args : ParsedArgs)
  | helpRequest
  | parseFailure (msg : Str)
  | validationFailure (msg : Str)

/-- The CompilationCancellation exception thrown from each catch block of
the Options constructor. -/
inductive CompilationCancellation where
  | cancellation

/-- The whole Options constructor: on any ParseCLI exception the matching
catch block rethrows CompilationCancellation (the message printing is a
dropped side effect), so no Options value is produced; on success the
fields are filled and configureOutPath runs. -/
def constructOptions (r : ParseResult) (env : Env) :
    Except CompilationCancellation Options :=
  match r with
  | .success args => .ok (buildFromArgs args env)
  | .helpRequest => .error .cancellation
  | .parseFailure _ => .error .cancellation
  | .validationFailure _ => .error .cancellation

/-- Modelled from the spec: ParseCLI on a command line that omits the
required positional file argument throws a validation error (args.hxx is
not among the sources). -/
def parseResultMissingFile : ParseResult :=
  .validationFailure (str "Option is required")

/-- Options::linker: the CXX environment variable wins whenever getenv
returns non-null; otherwise a non-empty linker_ field; otherwise the
compiled-in default "c++". -/
def Options.linker (env : Env) (o : Options) : Str :=
  match env.cxx with
  | some var => var
  | none => if o.linker_ ≠ [] then o.linker_ else str "c++"

/-- Options::ar: the AR environment variable when set, else "ar". -/
def Options.ar (_o : Options) (env : Env) : Str :=
  match env.arVar with
  | some var => var
  | none => str "ar"

/-- Options::objectPath: the explicit out path verbatim when pack is false
and outPath is non-empty, else parent directory plus stem plus ".o". -/
def Options.objectPath (o : Options) : Str :=
  if o.pack = false ∧ o.outPath ≠ [] then o.outPath
  else
    let parentPath := parent_path o.mainFile
    let pp := if parentPath ≠ [] then parentPath ++ ['/'] else parentPath
    pp ++ stem o.mainFile ++ str ".o"

/-- Options::llvmIrPath: empty unless printIr is set, else parent directory
plus stem plus ".ll". -/
def Options.llvmIrPath (o : Options) : Str :=
  if o.printIr = false then []
  else
    let parentPath := parent_path o.mainFile
    let pp := if parentPath ≠ [] then parentPath ++ ['/'] else parentPath
    pp ++ stem o.mainFile ++ str ".ll"

/-- The path-joining formula the spec states for derived paths: the parent
directory joined with a file name, with no separator inserted when the
parent directory is empty. -/
def joinDir (dir name : Str) : Str :=
  if dir = [] then name else dir ++ '/' :: name

/-- An invocation with the required file argument and every flag left at
its parser default. -/
def baseArgs : ParsedArgs :=
  { file := str "main.moji", package := none, out := none, interfaceOut := none,
    targetTriple := [], linkerFlag := none, report := false, object := false,
    json := false, format := false, color := false, optimize := false,
    printIr := false, searchPaths := [] }

/-- An environment with every variable unset; the absolute packages
directory is the one seen from the working directory /cwd. -/
def baseEnv : Env :=
  { cxx := none, arVar := none, packagesPath := none,
    absPackagesDir := str "/cwd/packages" }

/-- Invocation passing --linker custom. -/
def c1Args : ParsedArgs := { baseArgs with linkerFlag := some (str "custom") }

/-- Invocation passing -S a -S b. -/
def c2Args : ParsedArgs := { baseArgs with searchPaths := [str "a", str "b"] }

/-- Environment with the packages variable set to /env/pkgs. -/
def c2Env : Env := { baseEnv with packagesPath := some (str "/env/pkgs") }

/-- Environment with the packages variable set to the empty string. -/
def c3Env : Env := { baseEnv with packagesPath := some [] }

/-- Invocation whose main file is the dotfile .x. -/
def c4Args : ParsedArgs := { baseArgs with file := str ".x" }

/-- Invocation whose main file is foo/bar.moji. -/
def c4WitnessArgs : ParsedArgs := { baseArgs with file := str "foo/bar.moji" }

/-- Invocation with main file foo/bar.moji and package name x. -/
def c5Args : ParsedArgs :=
  { baseArgs with file := str "foo/bar.moji", package := some (str "x") }

/-- Invocation passing --emit-llvm and -o out.o on main file a/b.moji,
without -c. -/
def c6Args : ParsedArgs :=
  { baseArgs with file := str "a/b.moji", printIr := true, out := some (str "out.o") }

/-- Invocation passing -c and -o out.o on main file a/b.moji. -/
def c6WitnessArgs : ParsedArgs :=
  { baseArgs with file := str "a/b.moji", object := true, out := some (str "out.o") }

/-- Invocation passing --emit-llvm and -o custom.o on main file m.moji. -/
def c7Args : ParsedArgs :=
  { baseArgs with file := str "m.moji", printIr := true, out := some (str "custom.o") }

/-- configureInterfaceReport preserves outPath. -/
theorem configureInterfaceReport_outPath (o : Options) (pp : Str) :
    (configureInterfaceReport o pp).outPath = o.outPath := by
  unfold configureInterfaceReport
  dsimp only
  repeat' split
  all_goals rfl

/-- configureInterfaceReport preserves pack. -/
theorem configureInterfaceReport_pack (o : Options) (pp : Str) :
    (configureInterfaceReport o pp).pack = o.pack := by
  unfold configureInterfaceReport
  dsimp only
  repeat' split
  all_goals rfl

/-- configureInterfaceReport preserves printIr. -/
theorem configureInterfaceReport_printIr (o : Options) (pp : Str) :
    (configureInterfaceReport o pp).printIr = o.printIr := by
  unfold configureInterfaceReport
  dsimp only
  repeat' split
  all_goals rfl

/-- configureInterfaceReport preserves mainFile. -/
theorem configureInterfaceReport_mainFile (o : Options) (pp : Str) :
    (configureInterfaceReport o pp).mainFile = o.mainFile := by
  unfold configureInterfaceReport
  dsimp only
  repeat' split
  all_goals rfl

/-- configureInterfaceReport preserves packageSearchPaths. -/
theorem configureInterfaceReport_packageSearchPaths (o : Options) (pp : Str) :
    (configureInterfaceReport o pp).packageSearchPaths = o.packageSearchPaths := by
  unfold configureInterfaceReport
  dsimp only
  repeat' split
  all_goals rfl

/-- configureOutPath preserves pack. -/
theorem configureOutPath_pack (o : Options) :
    (configureOutPath o).pack = o.pack := by
  unfold configureOutPath
  dsimp only
  repeat' split
  all_goals rw [configureInterfaceReport_pack]

/-- configureOutPath preserves printIr. -/
theorem configureOutPath_printIr (o : Options) :
    (configureOutPath o).printIr = o.printIr := by
  unfold configureOutPath
  dsimp only
  repeat' split
  all_goals rw [configureInterfaceReport_printIr]

/-- configureOutPath preserves mainFile. -/
theorem configureOutPath_mainFile (o : Options) :
    (configureOutPath o).mainFile = o.mainFile := by
  unfold configureOutPath
  dsimp only
  repeat' split
  all_goals rw [configureInterfaceReport_mainFile]

/-- configureOutPath preserves packageSearchPaths. -/
theorem configureOutPath_packageSearchPaths (o : Options) :
    (configureOutPath o).packageSearchPaths = o.packageSearchPaths := by
  unfold configureOutPath
  dsimp only
  repeat' split
  all_goals rw [configureInterfaceReport_packageSearchPaths]

/-- The directory prefix the source builds (conditionally appending a
separator) agrees with the joinDir formula of the spec. -/
theorem sep_append_eq_joinDir (pp rest : Str) :
    (if pp ≠ [] then pp ++ ['/'] else pp) ++ rest = joinDir pp rest := by
  by_cases h : pp = [] <;> simp [joinDir, h]

/-- Same as sep_append_eq_joinDir for the branches that start from the
empty string instead of parentPath. -/
theorem base_append_eq_joinDir (pp rest : Str) :
    (if pp ≠ [] then pp ++ ['/'] else []) ++ rest = joinDir pp rest := by
  by_cases h : pp = [] <;> simp [joinDir, h]

/-- The standalone branch of configureOutPath with a non-empty stem. -/
theorem configureOutPath_outPath_standalone_stem (o : Options)
    (hpack : o.pack = true) (hout : o.outPath = [])
    (hstand : o.mainPackageName = []) (hstem : stem o.mainFile ≠ []) :
    (configureOutPath o).outPath =
      joinDir (parent_path o.mainFile) (stem o.mainFile) := by
  unfold configureOutPath
  dsimp only
  rw [if_pos ⟨hpack, hout⟩]
  split
  · split
    · rw [configureInterfaceReport_outPath, sep_append_eq_joinDir]
    · rename_i hns
      exact absurd hstem hns
  · rename_i hns
    exact absurd hstand hns

/-- The library branch of configureOutPath. -/
theorem configureOutPath_outPath_library (o : Options)
    (hpack : o.pack = true) (hout : o.outPath = [])
    (hstand : o.mainPackageName ≠ []) :
    (configureOutPath o).outPath =
      joinDir (parent_path o.mainFile)
        (str "lib" ++ o.mainPackageName ++ str ".a") := by
  unfold configureOutPath
  dsimp only
  rw [if_pos ⟨hpack, hout⟩]
  split
  · rename_i hs
    exact absurd hs hstand
  · rw [configureInterfaceReport_outPath, ← base_append_eq_joinDir]
    simp [List.append_assoc]

/-- When pack is false, configureOutPath leaves outPath untouched. -/
theorem configureOutPath_outPath_not_pack (o : Options)
    (hpack : o.pack = false) :
    (configureOutPath o).outPath = o.outPath := by
  unfold configureOutPath
  dsimp only
  have hcond : ¬ (o.pack = true ∧ o.outPath = []) := by
    rintro ⟨h1, h2⟩
    rw [hpack] at h1
    cases h1
  rw [if_neg hcond, configureInterfaceReport_outPath]

/-- pack of the freshly assigned fields, before configureOutPath. -/
theorem initialOptions_pack (args : ParsedArgs) (env : Env) :
    (initialOptions args env).pack =
      (if args.object = true ∨ args.printIr = true then false else true) := rfl

/-- buildFromArgs preserves the pack decision of the field assignments. -/
theorem buildFromArgs_pack (args : ParsedArgs) (env : Env) :
    (buildFromArgs args env).pack =
      (if args.object = true ∨ args.printIr = true then false else true) := by
  unfold buildFromArgs
  rw [configureOutPath_pack, initialOptions_pack]

/-- buildFromArgs keeps the main file of the invocation. -/
theorem buildFromArgs_mainFile (args : ParsedArgs) (env : Env) :
    (buildFromArgs args env).mainFile = args.file := by
  unfold buildFromArgs
  rw [configureOutPath_mainFile]
  rfl

/-- buildFromArgs keeps the printIr flag of the invocation. -/
theorem buildFromArgs_printIr (args : ParsedArgs) (env : Env) :
    (buildFromArgs args env).printIr = args.printIr := by
  unfold buildFromArgs
  rw [configureOutPath_printIr]
  rfl

/-- The derived branch of objectPath, phrased with joinDir. -/
theorem objectPath_derived (o : Options)
    (h : ¬ (o.pack = false ∧ o.outPath ≠ [])) :
    o.objectPath = joinDir (parent_path o.mainFile) (stem o.mainFile ++ str ".o") := by
  unfold Options.objectPath
  rw [if_neg h, ← sep_append_eq_joinDir]
  simp [List.append_assoc]

/-- The active branch of llvmIrPath, phrased with joinDir. -/
theorem llvmIrPath_on (o : Options) (h : o.printIr = true) :
    o.llvmIrPath = joinDir (parent_path o.mainFile) (stem o.mainFile ++ str ".ll") := by
  unfold Options.llvmIrPath
  rw [if_neg (by simp [h]), ← sep_append_eq_joinDir]
  simp [List.append_assoc]

/-- The inactive branch of llvmIrPath. -/
theorem llvmIrPath_off (o : Options) (h : o.printIr = false) :
    o.llvmIrPath = [] := by
  simp [Options.llvmIrPath, h]

/-- C1: the spec claims that with the CXX override unset and --linker given
value v, linker() returns v.  The code does not do that: the constructor
never stores the parsed --linker value into linker_, so with CXX unset and
--linker custom the method falls through to the compiled-in default
"c++" instead of "custom". -/
theorem linker_default_despite_linker_flag :
    Options.linker baseEnv (buildFromArgs c1Args baseEnv) = str "c++" ∧
      str "c++" ≠ str "custom" :=
  ⟨by decide, by decide⟩

/-- C2: with the packages environment variable set, the resulting
packageSearchPaths are exactly the CLI-supplied paths in their given order,
then the absolute local packages directory, then the variable's value, then
the compiled-in default directory, with no entry removed or deduplicated. -/
theorem packageSearchPaths_order_env_set (args : ParsedArgs) (env : Env)
    (e : Str) (h : env.packagesPath = some e) :
    (buildFromArgs args env).packageSearchPaths =
      args.searchPaths ++ [env.absPackagesDir] ++ [e] ++
        [defaultPackagesDirectory] := by
  unfold buildFromArgs
  rw [configureOutPath_packageSearchPaths]
  show readEnvironment env args.searchPaths = _
  unfold readEnvironment
  dsimp only
  rw [h]

/-- C2 witness at the spec test vector P = [a, b], E = /env/pkgs. -/
theorem packageSearchPaths_order_env_set_witness :
    (buildFromArgs c2Args c2Env).packageSearchPaths =
      [str "a", str "b"] ++ [str "/cwd/packages"] ++ [str "/env/pkgs"] ++
        [defaultPackagesDirectory] :=
  (packageSearchPaths_order_env_set c2Args c2Env (str "/env/pkgs") rfl).trans
    (by decide)

/-- C3 counterexample: with the packages variable set to the empty string,
the code appends an empty entry between the absolute packages directory and
the default directory, although the claim promises that an empty variable
leaves no slot. -/
theorem packageSearchPaths_empty_env_inserted :
    (buildFromArgs baseArgs c3Env).packageSearchPaths =
      [str "/cwd/packages", [], defaultPackagesDirectory] ∧
      (buildFromArgs baseArgs c3Env).packageSearchPaths ≠
        [str "/cwd/packages", defaultPackagesDirectory] :=
  ⟨by decide, by decide⟩

/-- C3 (amended): the packages variable's value is appended exactly when
getenv finds the variable set, even when its value is the empty string;
only when the variable is unset is no entry inserted for it. -/
theorem packageSearchPaths_env_entry_iff_set (args : ParsedArgs) (env : Env) :
    (buildFromArgs args env).packageSearchPaths =
      args.searchPaths ++ [env.absPackagesDir] ++
        (match env.packagesPath with | some p => [p] | none => []) ++
        [defaultPackagesDirectory] := by
  unfold buildFromArgs
  rw [configureOutPath_packageSearchPaths]
  show readEnvironment env args.searchPaths = _
  unfold readEnvironment
  dsimp only
  cases h : env.packagesPath <;> simp

/-- C4 counterexample: for the main file ".x" (a dotfile, whose llvm stem
is empty) the code keeps outPath = ".x" unchanged, while the claimed
formula, parent directory joined with the stem, yields the empty string. -/
theorem outPath_standalone_dotfile_kept :
    (buildFromArgs c4Args baseEnv).outPath = str ".x" ∧
      joinDir (parent_path (str ".x")) (stem (str ".x")) = [] ∧
      str ".x" ≠ ([] : Str) :=
  ⟨by decide, by decide, by decide⟩

/-- C4 (amended): with packaging enabled, no explicit out path and
standalone mode, outPath equals the parent directory of mainFile joined
with the stem of mainFile, with no separator inserted when the parent is
empty, provided mainFile has a non-empty stem; for a file with an empty
stem, such as the dotfile ".x", outPath stays mainFile unchanged. -/
theorem outPath_standalone_dir_stem (args : ParsedArgs) (env : Env)
    (hobj : args.object = false) (hir : args.printIr = false)
    (hout : args.out = none) (hpkg : args.package = none)
    (hstem : stem args.file ≠ []) :
    (buildFromArgs args env).outPath =
      joinDir (parent_path args.file) (stem args.file) := by
  unfold buildFromArgs
  exact configureOutPath_outPath_standalone_stem (initialOptions args env)
    (by simp [initialOptions, hobj, hir]) (by simp [initialOptions, hout])
    (by simp [initialOptions, hpkg]) hstem

/-- C4 witness at the spec example: foo/bar.moji gives foo/bar. -/
theorem outPath_standalone_dir_stem_witness :
    (buildFromArgs c4WitnessArgs baseEnv).outPath = str "foo/bar" :=
  (outPath_standalone_dir_stem c4WitnessArgs baseEnv rfl rfl rfl rfl
    (by decide)).trans (by decide)

/-- C5: with packaging enabled, no explicit out path and a package name n
supplied, outPath is the parent directory of mainFile joined with
lib n .a. -/
theorem outPath_library_libname (args : ParsedArgs) (env : Env) (n : Str)
    (hobj : args.object = false) (hir : args.printIr = false)
    (hout : args.out = none) (hpkg : args.package = some n) (hn : n ≠ []) :
    (buildFromArgs args env).outPath =
      joinDir (parent_path args.file) (str "lib" ++ n ++ str ".a") := by
  unfold buildFromArgs
  have h := configureOutPath_outPath_library (initialOptions args env)
    (by simp [initialOptions, hobj, hir]) (by simp [initialOptions, hout])
    (by simp [initialOptions, hpkg, hn])
  rw [h]
  simp [initialOptions, hpkg]

/-- C5 witness at the spec example: package x on foo/bar.moji gives
foo/libx.a. -/
theorem outPath_library_libname_witness :
    (buildFromArgs c5Args baseEnv).outPath = str "foo/libx.a" :=
  (outPath_library_libname c5Args baseEnv (str "x") rfl rfl rfl rfl
    (by decide)).trans (by decide)

/-- C6 counterexample: with --emit-llvm but not -c, and -o out.o on main
file a/b.moji, objectPath returns out.o verbatim, not the derived a/b.o the
claim demands whenever object-only mode is inactive. -/
theorem objectPath_emit_llvm_not_derived :
    (buildFromArgs c6Args baseEnv).objectPath = str "out.o" ∧
      str "out.o" ≠ str "a/b.o" :=
  ⟨by decide, by decide⟩

/-- C6 (amended): objectPath returns the explicit out path verbatim
whenever pack is false, which either -c or --emit-llvm causes, and the
supplied out value is non-empty; in every other case, that is with no -o,
with an empty -o value, or with packaging still enabled, it returns the
parent directory of mainFile joined with the stem plus ".o". -/
theorem objectPath_pack_guard (args : ParsedArgs) (env : Env) :
    (buildFromArgs args env).objectPath =
      if (args.object = true ∨ args.printIr = true) ∧ outFlagValue args ≠ [] then
        outFlagValue args
      else joinDir (parent_path args.file) (stem args.file ++ str ".o") := by
  by_cases hm : args.object = true ∨ args.printIr = true
  · have houtp : (buildFromArgs args env).outPath = outFlagValue args := by
      unfold buildFromArgs
      rw [configureOutPath_outPath_not_pack _
        (by rw [initialOptions_pack, if_pos hm])]
      rfl
    by_cases hv : outFlagValue args = []
    · rw [objectPath_derived _ (by
          rintro ⟨h1, h2⟩
          exact h2 (houtp.trans hv)),
        buildFromArgs_mainFile, if_neg (by rintro ⟨h3, h4⟩; exact h4 hv)]
    · have hpack : (buildFromArgs args env).pack = false := by
        rw [buildFromArgs_pack, if_pos hm]
      have hne : (buildFromArgs args env).outPath ≠ [] := by
        rw [houtp]
        exact hv
      unfold Options.objectPath
      rw [if_pos ⟨hpack, hne⟩, houtp, if_pos ⟨hm, hv⟩]
  · have hpack : (buildFromArgs args env).pack = true := by
      rw [buildFromArgs_pack, if_neg hm]
    rw [objectPath_derived _ (by
        rintro ⟨h1, h2⟩
        rw [hpack] at h1
        cases h1),
      buildFromArgs_mainFile, if_neg (by rintro ⟨h3, h4⟩; exact hm h3)]

/-- C6 witness: -c with -o out.o returns out.o verbatim. -/
theorem objectPath_pack_guard_witness :
    (buildFromArgs c6WitnessArgs baseEnv).objectPath = str "out.o" :=
  (objectPath_pack_guard c6WitnessArgs baseEnv).trans (by decide)

/-- C7: --emit-llvm without -c with an explicit non-empty -o path makes
objectPath return that path verbatim rather than the derived dir/stem.o,
because the guard tests pack == false, which --emit-llvm also causes. -/
theorem objectPath_emit_llvm_verbatim (args : ParsedArgs) (env : Env)
    (v : Str) (hir : args.printIr = true) (_hobj : args.object = false)
    (hsome : args.out = some v) (hv : v ≠ []) :
    (buildFromArgs args env).objectPath = v := by
  have hmode : args.object = true ∨ args.printIr = true := Or.inr hir
  have hpack : (buildFromArgs args env).pack = false := by
    rw [buildFromArgs_pack, if_pos hmode]
  have houtp : (buildFromArgs args env).outPath = v := by
    unfold buildFromArgs
    rw [configureOutPath_outPath_not_pack _
      (by rw [initialOptions_pack, if_pos hmode])]
    simp [initialOptions, hsome]
  have hne : (buildFromArgs args env).outPath ≠ [] := by
    rw [houtp]
    exact hv
  unfold Options.objectPath
  rw [if_pos ⟨hpack, hne⟩]
  exact houtp

/-- C7 witness: --emit-llvm with -o custom.o on m.moji returns custom.o. -/
theorem objectPath_emit_llvm_verbatim_witness :
    (buildFromArgs c7Args baseEnv).objectPath = str "custom.o" :=
  objectPath_emit_llvm_verbatim c7Args baseEnv (str "custom.o") rfl rfl rfl
    (by decide)

/-- C8: llvmIrPath is the empty string without --emit-llvm, and with it
equals the parent directory of mainFile joined with the stem plus ".ll". -/
theorem llvmIrPath_formula (args : ParsedArgs) (env : Env) :
    (buildFromArgs args env).llvmIrPath =
      if args.printIr = true then
        joinDir (parent_path args.file) (stem args.file ++ str ".ll")
      else [] := by
  cases h : args.printIr with
  | false =>
    rw [llvmIrPath_off _ (by rw [buildFromArgs_printIr]; exact h)]
    simp
  | true =>
    rw [llvmIrPath_on _ (by rw [buildFromArgs_printIr]; exact h),
      buildFromArgs_mainFile]
    simp

/-- C9: pack is false exactly when -c or --emit-llvm was requested, and
keeps its default true when neither was. -/
theorem pack_iff_modes (args : ParsedArgs) (env : Env) :
    (buildFromArgs args env).pack = (!args.object && !args.printIr) := by
  rw [buildFromArgs_pack]
  cases args.object <;> cases args.printIr <;> rfl

/-- C10: every ParseCLI outcome other than success, that is a help request,
a parse error or a validation error, in particular the one for the missing
required positional file, makes Options construction signal
CompilationCancellation and produce no Options value. -/
theorem construct_cancels_on_parse_signal (r : ParseResult) (env : Env)
    (h : ∀ args, r ≠ ParseResult.success args) :
    constructOptions r env =
      Except.error CompilationCancellation.cancellation := by
  cases r with
  | success args => exact absurd rfl (h args)
  | helpRequest => rfl
  | parseFailure _ => rfl
  | validationFailure _ => rfl

/-- C10 witness: the missing-file validation error cancels construction. -/
theorem construct_cancels_on_parse_signal_witness :
    constructOptions parseResultMissingFile baseEnv =
      Except.error CompilationCancellation.cancellation :=
  construct_cancels_on_parse_signal parseResultMissingFile baseEnv
    (fun args hcon => by simp [parseResultMissingFile] at hcon)

end EmojicodeCLI
